import Mathlib

/-!
Verification of the TideClock motor-stepping state machine
(src/lib/TideClock/TideClock.cpp, src/lib/TideClock/TideClock.h).

Shallow embedding notes:
* `millis()` values are modelled as `Nat`; the C code stores them in 32-bit
  unsigned longs and relies on unsigned subtraction.  All theorems below work
  in the regime where no unsigned subtraction wraps (monotone millis traces and
  `TC_ASK_TIDE_MILLIS ≤` the millis value at `begin`), where Nat truncated
  subtraction coincides with the C semantics.
* `time_t` values and the `int32_t` step counters are modelled as `Int`
  (no claim exercises 32-bit overflow).
* `TC_SECONDS_IN_SIX_HOURS` and `TC_SECONDS_IN_18_HOURS` are `uint32_t`
  macros, so the subtractions `span - secToNextTide` at TideClock.cpp lines
  99/102 are performed in unsigned 32-bit arithmetic: whenever the target is
  farther away than the face span the value wraps to a huge positive number
  and is never negative.  `secFromCycleEnd` models this with an exact
  `% 2^32`.  The subsequent float arithmetic is modelled by exact integer
  arithmetic with `Int.tdiv` (truncation toward zero), which agrees with the
  C float computation whenever `secFromCycleEnd` is below `2^24` — in
  particular for every in-span target; for wrapped (beyond-span) values the
  C float rounds (and on the nonlinear face the float-to-int32 cast
  overflows, which is undefined behaviour), so every theorem that equates
  `stepsNeeded` with a formula value confines itself to in-span targets.
* `Serial.printf` logging and the GPIO pulse waveform of `step()` have no
  effect on the machine state; a pulse is recorded as a boolean output and the
  `stepType` polarity flip.
* The external handler is modelled by passing, to each `run` invocation, the
  event the handler would return if it were called; the `queried` output flag
  records whether the code actually called it.
-/

/-- A tide event: its type (Arduino HIGH = 1, LOW = 0, TC_UNAVAILABLE = 3) and
its POSIX time (TideClock.h `tc_tide_t`). -/
structure tc_tide_t where
  tideType : Nat
  time : Int
deriving Repr, DecidableEq

/-- The type of scale on a clock face (TideClock.h `tc_scale_t`). -/
inductive tc_scale_t where
  | tcLinear
  | tcNonlinear
deriving Repr, DecidableEq

/-- The configuration fixed by `begin`: face type plus the motor profile
fields actually used by `run`/`test` (`stepsPerTick`, `minStepInterval`). -/
structure TcConfig where
  faceType : tc_scale_t
  stepsPerTick : Int
  minStepInterval : Nat
deriving Repr, DecidableEq

/-- TC_SECONDS_PER_TICK (TideClock.h). -/
def TC_SECONDS_PER_TICK : Int := 12

/-- TC_SECONDS_IN_SIX_HOURS (TideClock.h). -/
def TC_SECONDS_IN_SIX_HOURS : Int := 21600

/-- TC_SECONDS_IN_18_HOURS (TideClock.h). -/
def TC_SECONDS_IN_18_HOURS : Int := 64800

/-- TC_TICKS_IN_A_CYCLE = 60 * 30 (TideClock.h). -/
def TC_TICKS_IN_A_CYCLE : Int := 1800

/-- TC_ASK_TIDE_MILLIS (TideClock.h). -/
def TC_ASK_TIDE_MILLIS : Nat := 120000

/-- TC_UNAVAILABLE (TideClock.h). -/
def TC_UNAVAILABLE : Nat := 3

/-- The mutable state of a TideClock instance (member variables of the class
that `run`/`test` read or write). -/
structure ClockState where
  stepType : Bool
  paused : Bool
  stepsTaken : Int
  stepsNeeded : Int
  nextTide : tc_tide_t
  gotTideMillis : Nat
  lastMillis : Nat
deriving Repr, DecidableEq

/-- State after the constructor and `begin(h, type, motor)`, for a global
instance (main.cpp declares `TideClock tc {TICK_PIN, TOCK_PIN};` at file
scope, so the members the constructor leaves unset — in particular
`stepsNeeded` — are zero-initialized).  `m0` is `millis()` at `begin`. -/
def beginState (m0 : Nat) : ClockState :=
  { stepType := true
    paused := false
    stepsTaken := 0
    stepsNeeded := 0
    nextTide := { tideType := TC_UNAVAILABLE, time := 0 }
    gotTideMillis := m0 - TC_ASK_TIDE_MILLIS
    lastMillis := m0 }

/-- The face span: TC_SECONDS_IN_18_HOURS for the nonlinear face,
TC_SECONDS_IN_SIX_HOURS for the linear one. -/
def faceSpan (cfg : TcConfig) : Int :=
  match cfg.faceType with
  | .tcNonlinear => TC_SECONDS_IN_18_HOURS
  | .tcLinear => TC_SECONDS_IN_SIX_HOURS

/-- `secFromCycleEnd` as computed in TideClock.cpp lines 96-103: the face
span macro (a `uint32_t`) minus `secToNextTide` (an `int32_t`), evaluated by
C usual arithmetic conversions in unsigned 32-bit arithmetic, then cast to
float.  The integer value is `(span - secToNextTide) mod 2^32`: non-negative
always, and equal to `span - secToNextTide` exactly when the target is
within the face span.  The float cast is value-preserving below `2^24`, so
the sign test (`< 0`, dead) and the zero test (`== 0`) on the float agree
with the integer value everywhere. -/
def secFromCycleEnd (cfg : TcConfig) (secToNextTide : Int) : Int :=
  (faceSpan cfg - secToNextTide) % (2 ^ 32)

/-- The unsigned-wrapped `secFromCycleEnd` is never negative, so the pause
entry test at TideClock.cpp line 113 is dead code. -/
lemma secFromCycleEnd_nonneg (cfg : TcConfig) (x : Int) :
    0 ≤ secFromCycleEnd cfg x := by
  unfold secFromCycleEnd
  exact Int.emod_nonneg _ (by norm_num)

/-- The face formula for `stepsNeeded` (TideClock.cpp lines 96-104), on the
unsigned-wrapped `secFromCycleEnd`: nonlinear is
`stepsPerTick * trunc(A * sec^2)` with `A = 1800 / (18h)^2`; linear is
`stepsPerTick * trunc(sec / 12)`.  `Int.tdiv` truncates toward zero,
matching the `int32_t` casts.  Exact for in-span targets (float-exact
regime); for wrapped values the C float rounds and the nonlinear int32 cast
is undefined behaviour, so formula-equating theorems restrict themselves to
in-span targets. -/
def stepsNeededFormula (cfg : TcConfig) (secToNextTide : Int) : Int :=
  let sec := secFromCycleEnd cfg secToNextTide
  match cfg.faceType with
  | .tcNonlinear =>
    cfg.stepsPerTick *
      Int.tdiv (1800 * (sec * sec)) (TC_SECONDS_IN_18_HOURS * TC_SECONDS_IN_18_HOURS)
  | .tcLinear =>
    cfg.stepsPerTick * Int.tdiv sec TC_SECONDS_PER_TICK

/-- The tail of `run` from line 95 on: recompute `stepsNeeded`, handle a new
cycle (missed-cycle bonus, pause entry, first-pass assumption), and clear
`paused` when `secFromCycleEnd == 0`.  The `sec < 0` pause-entry branch is
kept verbatim from the source (line 113); it is dead in both, because the
unsigned-wrapped `secFromCycleEnd` is never negative. -/
def runTail (cfg : TcConfig) (s : ClockState) (t : Int)
    (firstPass startingNewCycle missedCycle : Bool) : ClockState :=
  let secToNextTide : Int := s.nextTide.time - t
  let sec := secFromCycleEnd cfg secToNextTide
  let s1 := { s with stepsNeeded := stepsNeededFormula cfg secToNextTide }
  let s2 :=
    if startingNewCycle then
      let sA :=
        if missedCycle then
          { s1 with stepsNeeded := s1.stepsNeeded + cfg.stepsPerTick * TC_TICKS_IN_A_CYCLE }
        else s1
      if decide (sec < 0) && !missedCycle then { sA with paused := true }
      else if firstPass then { sA with stepsTaken := sA.stepsNeeded }
      else sA
    else s1
  if s2.paused && decide (sec = 0) then { s2 with paused := false } else s2

/-- The result of one `run` invocation: the new state, whether `step()` was
called (a pulse was issued), whether the handler was called, and whether a
new target was installed. -/
structure RunResult where
  state : ClockState
  pulsed : Bool
  queried : Bool
  installed : Bool
deriving Repr, DecidableEq

/-- `run(t)` (TideClock.cpp lines 59-137).  `curMillis` is `millis()` at
entry; `handlerResult` is what the handler returns if it is called. -/
def run (cfg : TcConfig) (s : ClockState) (t : Int) (curMillis : Nat)
    (handlerResult : tc_tide_t) : RunResult :=
  if curMillis - s.lastMillis < cfg.minStepInterval then
    ⟨s, false, false, false⟩
  else
    let s0 := { s with lastMillis := curMillis }
    if s0.stepsNeeded > s0.stepsTaken then
      ⟨{ s0 with stepsTaken := s0.stepsTaken + 1, stepType := !s0.stepType },
        true, false, false⟩
    else
      let firstPass : Bool := s0.nextTide.time == 0
      if t > s0.nextTide.time then
        if curMillis - s0.gotTideMillis < TC_ASK_TIDE_MILLIS then
          ⟨s0, false, false, false⟩
        else
          let s1 := { s0 with gotTideMillis := curMillis }
          if handlerResult.tideType == TC_UNAVAILABLE then
            ⟨s1, false, true, false⟩
          else
            let missedCycle : Bool := s1.nextTide.tideType == handlerResult.tideType
            let s2 := { s1 with nextTide := handlerResult, stepsTaken := 0 }
            ⟨runTail cfg s2 t firstPass true missedCycle, false, true, true⟩
      else
        ⟨runTail cfg s0 t firstPass false false, false, false, false⟩

/-- `test()` (TideClock.cpp lines 142-151): unconditionally zero the stored
next-tide time, then pulse if the motor throttle allows. -/
def test (cfg : TcConfig) (s : ClockState) (curMillis : Nat) : ClockState × Bool :=
  let s0 := { s with nextTide := { s.nextTide with time := 0 } }
  if curMillis - s0.lastMillis < cfg.minStepInterval then
    (s0, false)
  else
    ({ s0 with lastMillis := curMillis, stepType := !s0.stepType }, true)

/-- One entry-point invocation in a trace: either `run(t)` at a given
`millis()` reading with a given handler response, or `test()`. -/
inductive TcEvent where
  | runEv (t : Int) (millis : Nat) (handlerResult : tc_tide_t)
  | testEv (millis : Nat)
deriving Repr, DecidableEq

/-- The `millis()` reading at an event. -/
def TcEvent.millis : TcEvent → Nat
  | .runEv _ m _ => m
  | .testEv m => m

/-- Execute one event: new state, whether a pulse was issued, whether the
handler was called. -/
def doEvent (cfg : TcConfig) (s : ClockState) : TcEvent → ClockState × Bool × Bool
  | .runEv t m h =>
    let r := run cfg s t m h
    (r.state, r.pulsed, r.queried)
  | .testEv m =>
    let p := test cfg s m
    (p.1, p.2, false)

/-- The `millis()` readings at which pulses are issued along a trace. -/
def pulseTimes (cfg : TcConfig) : ClockState → List TcEvent → List Nat
  | _, [] => []
  | s, e :: es =>
    let r := doEvent cfg s e
    (if r.2.1 then [e.millis] else []) ++ pulseTimes cfg r.1 es

/-- The `millis()` readings at which the handler is called along a trace. -/
def queryTimes (cfg : TcConfig) : ClockState → List TcEvent → List Nat
  | _, [] => []
  | s, e :: es =>
    let r := doEvent cfg s e
    (if r.2.2 then [e.millis] else []) ++ queryTimes cfg r.1 es

/-- The state after executing a trace. -/
def finalState (cfg : TcConfig) : ClockState → List TcEvent → ClockState
  | s, [] => s
  | s, e :: es => finalState cfg (doEvent cfg s e).1 es

/-- The configuration of a linear-face clock with a tcOne motor
(TC_ONE_STEPS_PER_TICK = 1, TC_ONE_MIN_STEP_INTERVAL = 200). -/
def cfgLinearOne : TcConfig :=
  { faceType := .tcLinear, stepsPerTick := 1, minStepInterval := 200 }

/-- The configuration of a nonlinear-face clock with a tcOne motor. -/
def cfgNonlinearOne : TcConfig :=
  { faceType := .tcNonlinear, stepsPerTick := 1, minStepInterval := 200 }

lemma runTail_lastMillis (cfg : TcConfig) (s : ClockState) (t : Int)
    (f st mc : Bool) : (runTail cfg s t f st mc).lastMillis = s.lastMillis := by
  simp only [runTail]
  repeat' split
  all_goals rfl

lemma runTail_gotTideMillis (cfg : TcConfig) (s : ClockState) (t : Int)
    (f st mc : Bool) : (runTail cfg s t f st mc).gotTideMillis = s.gotTideMillis := by
  simp only [runTail]
  repeat' split
  all_goals rfl

lemma runTail_nextTide (cfg : TcConfig) (s : ClockState) (t : Int)
    (f st mc : Bool) : (runTail cfg s t f st mc).nextTide = s.nextTide := by
  simp only [runTail]
  repeat' split
  all_goals rfl

lemma runTail_stepsNeeded (cfg : TcConfig) (s : ClockState) (t : Int)
    (f st mc : Bool) :
    (runTail cfg s t f st mc).stepsNeeded =
      stepsNeededFormula cfg (s.nextTide.time - t) +
        (if st && mc then cfg.stepsPerTick * TC_TICKS_IN_A_CYCLE else 0) := by
  cases st <;> cases mc <;> (simp only [runTail]; repeat' split)
  all_goals simp_all

lemma runTail_stepsTaken_notNew (cfg : TcConfig) (s : ClockState) (t : Int)
    (f mc : Bool) : (runTail cfg s t f false mc).stepsTaken = s.stepsTaken := by
  simp only [runTail]
  repeat' split
  all_goals simp_all

lemma doEvent_millis_facts (cfg : TcConfig) (s : ClockState) (e : TcEvent)
    (hl : s.lastMillis ≤ e.millis) (hg : s.gotTideMillis ≤ e.millis) :
    ((doEvent cfg s e).1.lastMillis = s.lastMillis ∨
      (doEvent cfg s e).1.lastMillis = e.millis) ∧
    ((doEvent cfg s e).1.gotTideMillis = s.gotTideMillis ∨
      (doEvent cfg s e).1.gotTideMillis = e.millis) ∧
    ((doEvent cfg s e).2.1 = true →
      s.lastMillis + cfg.minStepInterval ≤ e.millis ∧
      (doEvent cfg s e).1.lastMillis = e.millis) ∧
    ((doEvent cfg s e).2.2 = true →
      s.gotTideMillis + TC_ASK_TIDE_MILLIS ≤ e.millis ∧
      (doEvent cfg s e).1.gotTideMillis = e.millis) ∧
    ((doEvent cfg s e).2.2 = false →
      (doEvent cfg s e).1.gotTideMillis = s.gotTideMillis) := by
  cases e with
  | runEv t m h =>
    simp only [doEvent, run, TcEvent.millis] at *
    repeat' split
    all_goals
      simp_all [runTail_lastMillis, runTail_gotTideMillis]
    all_goals omega
  | testEv m =>
    simp only [doEvent, test, TcEvent.millis] at *
    repeat' split
    all_goals simp_all
    all_goals omega

lemma chain_gap_forall {c : Nat} :
    ∀ {l : List Nat} {lo : Nat}, List.Chain (fun a b => a + c ≤ b) lo l →
      ∀ y ∈ l, lo + c ≤ y := by
  intro l
  induction l with
  | nil => intro lo _ y hy; cases hy
  | cons x xs ih =>
    intro lo h y hy
    rw [List.chain_cons] at h
    rcases List.mem_cons.mp hy with rfl | hy'
    · exact h.1
    · have h1 := h.1
      have h2 := ih h.2 y hy'
      omega

lemma chain_gap_pairwise {c : Nat} :
    ∀ {l : List Nat} {lo : Nat}, List.Chain (fun a b => a + c ≤ b) lo l →
      List.Pairwise (fun a b => a + c ≤ b) l := by
  intro l
  induction l with
  | nil => intro lo _; exact List.Pairwise.nil
  | cons x xs ih =>
    intro lo h
    rw [List.chain_cons] at h
    exact List.Pairwise.cons (chain_gap_forall h.2) (ih h.2)

lemma chain_gap_mono_head {c : Nat} {a b : Nat} {l : List Nat} (hba : b ≤ a)
    (h : List.Chain (fun x y => x + c ≤ y) a l) :
    List.Chain (fun x y => x + c ≤ y) b l := by
  cases l with
  | nil => exact List.Chain.nil
  | cons x xs =>
    rw [List.chain_cons] at h ⊢
    refine ⟨?_, h.2⟩
    have := h.1
    omega

lemma pulseTimes_chain (cfg : TcConfig) :
    ∀ (es : List TcEvent) (s : ClockState) (lo : Nat),
      s.lastMillis ≤ lo → s.gotTideMillis ≤ lo →
      List.Chain (· ≤ ·) lo (es.map TcEvent.millis) →
      List.Chain (fun a b => a + cfg.minStepInterval ≤ b) s.lastMillis
        (pulseTimes cfg s es) := by
  intro es
  induction es with
  | nil =>
    intro s lo _ _ _
    exact List.Chain.nil
  | cons e es ih =>
    intro s lo hl hg hchain
    rw [List.map_cons, List.chain_cons] at hchain
    obtain ⟨hlom, hrest⟩ := hchain
    have hle : s.lastMillis ≤ e.millis := le_trans hl hlom
    have hge : s.gotTideMillis ≤ e.millis := le_trans hg hlom
    obtain ⟨hlast, hgot, hpul, _, _⟩ := doEvent_millis_facts cfg s e hle hge
    have hlast' : (doEvent cfg s e).1.lastMillis ≤ e.millis := by
      rcases hlast with h | h <;> omega
    have hgot' : (doEvent cfg s e).1.gotTideMillis ≤ e.millis := by
      rcases hgot with h | h <;> omega
    simp only [pulseTimes]
    cases hp : (doEvent cfg s e).2.1 with
    | true =>
      obtain ⟨hgap, heq⟩ := hpul hp
      rw [if_pos rfl]
      rw [List.singleton_append, List.chain_cons]
      refine ⟨hgap, ?_⟩
      have := ih (doEvent cfg s e).1 e.millis hlast' hgot' hrest
      rw [heq] at this
      exact this
    | false =>
      rw [if_neg (by simp)]
      rw [List.nil_append]
      have hmono : s.lastMillis ≤ (doEvent cfg s e).1.lastMillis := by
        rcases hlast with h | h <;> omega
      exact chain_gap_mono_head hmono (ih (doEvent cfg s e).1 e.millis hlast' hgot' hrest)

lemma queryTimes_chain (cfg : TcConfig) :
    ∀ (es : List TcEvent) (s : ClockState) (lo : Nat),
      s.lastMillis ≤ lo → s.gotTideMillis ≤ lo →
      List.Chain (· ≤ ·) lo (es.map TcEvent.millis) →
      List.Chain (fun a b => a + TC_ASK_TIDE_MILLIS ≤ b) s.gotTideMillis
        (queryTimes cfg s es) := by
  intro es
  induction es with
  | nil =>
    intro s lo _ _ _
    exact List.Chain.nil
  | cons e es ih =>
    intro s lo hl hg hchain
    rw [List.map_cons, List.chain_cons] at hchain
    obtain ⟨hlom, hrest⟩ := hchain
    have hle : s.lastMillis ≤ e.millis := le_trans hl hlom
    have hge : s.gotTideMillis ≤ e.millis := le_trans hg hlom
    obtain ⟨hlast, hgot, _, hqry, _⟩ := doEvent_millis_facts cfg s e hle hge
    have hlast' : (doEvent cfg s e).1.lastMillis ≤ e.millis := by
      rcases hlast with h | h <;> omega
    have hgot' : (doEvent cfg s e).1.gotTideMillis ≤ e.millis := by
      rcases hgot with h | h <;> omega
    simp only [queryTimes]
    cases hq : (doEvent cfg s e).2.2 with
    | true =>
      obtain ⟨hgap, heq⟩ := hqry hq
      rw [if_pos rfl]
      rw [List.singleton_append, List.chain_cons]
      refine ⟨hgap, ?_⟩
      have := ih (doEvent cfg s e).1 e.millis hlast' hgot' hrest
      rw [heq] at this
      exact this
    | false =>
      rw [if_neg (by simp)]
      rw [List.nil_append]
      have hmono : s.gotTideMillis ≤ (doEvent cfg s e).1.gotTideMillis := by
        rcases hgot with h | h <;> omega
      exact chain_gap_mono_head hmono (ih (doEvent cfg s e).1 e.millis hlast' hgot' hrest)

lemma run_queried_gotTide (cfg : TcConfig) (s : ClockState) (t : Int) (m : Nat)
    (h : tc_tide_t) :
    (run cfg s t m h).queried = true → (run cfg s t m h).state.gotTideMillis = m := by
  intro hq
  simp only [run] at hq ⊢
  repeat' split at hq
  all_goals simp_all [runTail_gotTideMillis]
  all_goals rw [if_neg (by omega), if_neg (by omega), if_neg (by omega)]
  all_goals simp [runTail_gotTideMillis]

/-- A concrete trace for the C4 witness: a first-run target acquisition
followed by ordinary ticking that issues two pulses. -/
def c4Events : List TcEvent :=
  [.runEv 1000 200200 ⟨1, 11800⟩,
   .runEv 1012 212200 ⟨1, 11800⟩,
   .runEv 1012 212400 ⟨1, 11800⟩,
   .runEv 1024 224400 ⟨1, 11800⟩,
   .runEv 1024 224600 ⟨1, 11800⟩]

/-- C4: for every sequence of run() and test() invocations with non-decreasing
monotonic-clock readings, every pair of issued pulses is at least
minStepIntervalMs apart. -/
theorem tc_C4_pulse_throttle (cfg : TcConfig) (m0 : Nat) (es : List TcEvent)
    (hmono : List.Chain (· ≤ ·) m0 (es.map TcEvent.millis)) :
    List.Pairwise (fun a b => a + cfg.minStepInterval ≤ b)
      (pulseTimes cfg (beginState m0) es) := by
  have h1 : (beginState m0).lastMillis ≤ m0 := Nat.le_refl m0
  have h2 : (beginState m0).gotTideMillis ≤ m0 := Nat.sub_le _ _
  exact chain_gap_pairwise (pulseTimes_chain cfg es (beginState m0) m0 h1 h2 hmono)

theorem tc_C4_pulse_throttle_witness :
    List.Chain (· ≤ ·) 200000 (c4Events.map TcEvent.millis) ∧
    pulseTimes cfgLinearOne (beginState 200000) c4Events = [212400, 224600] ∧
    List.Pairwise (fun a b => a + cfgLinearOne.minStepInterval ≤ b)
      (pulseTimes cfgLinearOne (beginState 200000) c4Events) :=
  ⟨by norm_num [c4Events, TcEvent.millis, List.chain_cons], by decide,
    tc_C4_pulse_throttle cfgLinearOne 200000 c4Events
      (by norm_num [c4Events, TcEvent.millis, List.chain_cons])⟩

/-- A concrete trace for the C5 witness: two handler calls exactly one
query-throttle window apart. -/
def c5Events : List TcEvent :=
  [.runEv 1000 200200 ⟨1, 11800⟩,
   .runEv 11900 320200 ⟨0, 33500⟩]

/-- C5: for every sequence of invocations with non-decreasing monotonic-clock
readings, the tide-event supplier is never called twice within one
TC_ASK_TIDE_MILLIS window, and whenever it is called the throttle timestamp
gotTideMillis is set to the current millis reading regardless of the
result. -/
theorem tc_C5_query_throttle (cfg : TcConfig) (m0 : Nat) (es : List TcEvent)
    (hmono : List.Chain (· ≤ ·) m0 (es.map TcEvent.millis)) :
    List.Pairwise (fun a b => a + TC_ASK_TIDE_MILLIS ≤ b)
      (queryTimes cfg (beginState m0) es) ∧
    ∀ (s : ClockState) (t : Int) (m : Nat) (h : tc_tide_t),
      (run cfg s t m h).queried = true → (run cfg s t m h).state.gotTideMillis = m := by
  constructor
  · have h1 : (beginState m0).lastMillis ≤ m0 := Nat.le_refl m0
    have h2 : (beginState m0).gotTideMillis ≤ m0 := Nat.sub_le _ _
    exact chain_gap_pairwise (queryTimes_chain cfg es (beginState m0) m0 h1 h2 hmono)
  · intro s t m h
    exact run_queried_gotTide cfg s t m h

theorem tc_C5_query_throttle_witness :
    List.Chain (· ≤ ·) 200000 (c5Events.map TcEvent.millis) ∧
    queryTimes cfgLinearOne (beginState 200000) c5Events = [200200, 320200] ∧
    List.Pairwise (fun a b => a + TC_ASK_TIDE_MILLIS ≤ b)
      (queryTimes cfgLinearOne (beginState 200000) c5Events) ∧
    (run cfgLinearOne (beginState 200000) 1000 200200 ⟨3, 99⟩).queried = true ∧
    (run cfgLinearOne (beginState 200000) 1000 200200 ⟨3, 99⟩).state.gotTideMillis = 200200 :=
  ⟨by norm_num [c5Events, TcEvent.millis, List.chain_cons], by decide,
    (tc_C5_query_throttle cfgLinearOne 200000 c5Events
      (by norm_num [c5Events, TcEvent.millis, List.chain_cons])).1,
    by decide,
    (tc_C5_query_throttle cfgLinearOne 200000 c5Events
      (by norm_num [c5Events, TcEvent.millis, List.chain_cons])).2
      (beginState 200000) 1000 200200 ⟨3, 99⟩ (by decide)⟩

lemma run_cases (cfg : TcConfig) (s : ClockState) (t : Int) (m : Nat) (h : tc_tide_t) :
    (m - s.lastMillis < cfg.minStepInterval ∧
      run cfg s t m h = ⟨s, false, false, false⟩) ∨
    (cfg.minStepInterval ≤ m - s.lastMillis ∧ s.stepsTaken < s.stepsNeeded ∧
      run cfg s t m h =
        ⟨{ s with lastMillis := m, stepsTaken := s.stepsTaken + 1, stepType := !s.stepType },
          true, false, false⟩) ∨
    (cfg.minStepInterval ≤ m - s.lastMillis ∧ s.stepsNeeded ≤ s.stepsTaken ∧
      s.nextTide.time < t ∧ m - s.gotTideMillis < TC_ASK_TIDE_MILLIS ∧
      run cfg s t m h = ⟨{ s with lastMillis := m }, false, false, false⟩) ∨
    (cfg.minStepInterval ≤ m - s.lastMillis ∧ s.stepsNeeded ≤ s.stepsTaken ∧
      s.nextTide.time < t ∧ TC_ASK_TIDE_MILLIS ≤ m - s.gotTideMillis ∧
      h.tideType = TC_UNAVAILABLE ∧
      run cfg s t m h = ⟨{ s with lastMillis := m, gotTideMillis := m }, false, true, false⟩) ∨
    (cfg.minStepInterval ≤ m - s.lastMillis ∧ s.stepsNeeded ≤ s.stepsTaken ∧
      s.nextTide.time < t ∧ TC_ASK_TIDE_MILLIS ≤ m - s.gotTideMillis ∧
      h.tideType ≠ TC_UNAVAILABLE ∧
      run cfg s t m h =
        ⟨runTail cfg
            { s with lastMillis := m, gotTideMillis := m, nextTide := h, stepsTaken := 0 }
            t (s.nextTide.time == 0) true (s.nextTide.tideType == h.tideType),
          false, true, true⟩) ∨
    (cfg.minStepInterval ≤ m - s.lastMillis ∧ s.stepsNeeded ≤ s.stepsTaken ∧
      t ≤ s.nextTide.time ∧
      run cfg s t m h =
        ⟨runTail cfg { s with lastMillis := m } t (s.nextTide.time == 0) false false,
          false, false, false⟩) := by
  by_cases h1 : m - s.lastMillis < cfg.minStepInterval
  · exact Or.inl ⟨h1, by simp [run, h1]⟩
  have h1' : cfg.minStepInterval ≤ m - s.lastMillis := Nat.not_lt.mp h1
  by_cases h2 : s.stepsTaken < s.stepsNeeded
  · exact Or.inr (Or.inl ⟨h1', h2, by simp [run, h1, h2]⟩)
  have h2' : s.stepsNeeded ≤ s.stepsTaken := Int.not_lt.mp h2
  by_cases h3 : s.nextTide.time < t
  · by_cases h4 : m - s.gotTideMillis < TC_ASK_TIDE_MILLIS
    · exact Or.inr (Or.inr (Or.inl ⟨h1', h2', h3, h4, by simp [run, h1, h2, h3, h4]⟩))
    have h4' : TC_ASK_TIDE_MILLIS ≤ m - s.gotTideMillis := Nat.not_lt.mp h4
    by_cases h5 : h.tideType = TC_UNAVAILABLE
    · exact Or.inr (Or.inr (Or.inr (Or.inl ⟨h1', h2', h3, h4', h5,
        by simp [run, h1, h2, h3, h4, h5]⟩)))
    · exact Or.inr (Or.inr (Or.inr (Or.inr (Or.inl ⟨h1', h2', h3, h4', h5,
        by simp [run, h1, h2, h3, h4, h5]⟩))))
  · have h3' : t ≤ s.nextTide.time := Int.not_lt.mp h3
    exact Or.inr (Or.inr (Or.inr (Or.inr (Or.inr ⟨h1', h2', h3',
      by simp [run, h1, h2, h3]⟩))))

/-- A pulse-issuing invocation in equation form: when the motor throttle has
elapsed and steps are owed, run() takes exactly the step branch. -/
lemma run_pulse_eq (cfg : TcConfig) (s : ClockState) (t : Int) (m : Nat)
    (h : tc_tide_t)
    (h1 : cfg.minStepInterval ≤ m - s.lastMillis)
    (h2 : s.stepsTaken < s.stepsNeeded) :
    run cfg s t m h =
      ⟨{ s with lastMillis := m, stepsTaken := s.stepsTaken + 1, stepType := !s.stepType },
        true, false, false⟩ := by
  rcases run_cases cfg s t m h with
    ⟨hc, _⟩ | ⟨_, _, heq⟩ | ⟨_, hc, _, _, _⟩ | ⟨_, hc, _, _, _, _⟩ |
    ⟨_, hc, _, _, _, _⟩ | ⟨_, hc, _, _⟩
  · omega
  · exact heq
  all_goals omega

/-- k consecutive run invocations 200 ms apart starting at millis m0, all at
the same wall time t and with the same (never-consulted) handler response. -/
def catchupEvents (t : Int) (h : tc_tide_t) : Nat → Nat → List TcEvent
  | _, 0 => []
  | m0, Nat.succ k => .runEv t m0 h :: catchupEvents t h (m0 + 200) k

/-- Running a k-step catch-up (stepsNeeded = stepsTaken + k) with properly
spaced invocations takes exactly the k owed steps and touches nothing else
but lastMillis and stepType. -/
lemma catchup_run (k : Nat) :
    ∀ (s : ClockState) (t : Int) (h : tc_tide_t) (m0 : Nat),
      s.lastMillis + 200 ≤ m0 →
      s.stepsNeeded = s.stepsTaken + k →
      (finalState cfgLinearOne s (catchupEvents t h m0 k)).stepsTaken = s.stepsNeeded ∧
      (finalState cfgLinearOne s (catchupEvents t h m0 k)).stepsNeeded = s.stepsNeeded ∧
      (finalState cfgLinearOne s (catchupEvents t h m0 k)).nextTide = s.nextTide ∧
      (finalState cfgLinearOne s (catchupEvents t h m0 k)).paused = s.paused ∧
      (finalState cfgLinearOne s (catchupEvents t h m0 k)).lastMillis + 200 ≤
        m0 + 200 * k := by
  induction k with
  | zero =>
    intro s t h m0 hm hsn
    simp only [catchupEvents, finalState]
    exact ⟨by omega, trivial, trivial, trivial, by omega⟩
  | succ k ih =>
    intro s t h m0 hm hsn
    have hpulse := run_pulse_eq cfgLinearOne s t m0 h
      (by show (200 : Nat) ≤ m0 - s.lastMillis; omega) (by omega)
    have hstep :
        finalState cfgLinearOne s (catchupEvents t h m0 (k + 1)) =
        finalState cfgLinearOne
          { s with lastMillis := m0, stepsTaken := s.stepsTaken + 1, stepType := !s.stepType }
          (catchupEvents t h (m0 + 200) k) := by
      simp only [catchupEvents, finalState, doEvent, hpulse]
    rw [hstep]
    obtain ⟨c1, c2, c3, c4, c5⟩ := ih
      { s with lastMillis := m0, stepsTaken := s.stepsTaken + 1, stepType := !s.stepType }
      t h (m0 + 200)
      (by show m0 + 200 ≤ m0 + 200; omega)
      (by show s.stepsNeeded = s.stepsTaken + 1 + k; omega)
    exact ⟨c1, c2, c3, c4, by omega⟩

/-- Splitting a trace splits the fold. -/
lemma finalState_append (cfg : TcConfig) (s : ClockState) (l1 l2 : List TcEvent) :
    finalState cfg s (l1 ++ l2) = finalState cfg (finalState cfg s l1) l2 := by
  induction l1 generalizing s with
  | nil => rfl
  | cons e es ih =>
    simp only [List.cons_append, finalState]
    exact ih _

/-- A one-event trace is a single run invocation. -/
lemma finalState_single_run (cfg : TcConfig) (s : ClockState) (t : Int) (m : Nat)
    (h : tc_tide_t) :
    finalState cfg s [TcEvent.runEv t m h] = (run cfg s t m h).state := rfl

/-- A caught-up, in-target invocation (no step owed, target still ahead)
only recomputes stepsNeeded from the face formula: stepsTaken is unchanged
and no pulse is issued. -/
lemma run_nofetch_fields (cfg : TcConfig) (s : ClockState) (t : Int) (m : Nat)
    (h : tc_tide_t)
    (h1 : cfg.minStepInterval ≤ m - s.lastMillis)
    (h2 : s.stepsNeeded ≤ s.stepsTaken)
    (h3 : t ≤ s.nextTide.time) :
    (run cfg s t m h).state.stepsTaken = s.stepsTaken ∧
    (run cfg s t m h).state.stepsNeeded = stepsNeededFormula cfg (s.nextTide.time - t) ∧
    (run cfg s t m h).pulsed = false := by
  rcases run_cases cfg s t m h with
    ⟨hc, _⟩ | ⟨_, hc, _⟩ | ⟨_, _, hc, _, _⟩ | ⟨_, _, hc, _, _, _⟩ |
    ⟨_, _, hc, _, _, _⟩ | ⟨_, _, _, heq⟩
  · omega
  · omega
  · omega
  · omega
  · omega
  · rw [heq]
    refine ⟨?_, ?_, rfl⟩
    · show (runTail cfg { s with lastMillis := m } t
          (s.nextTide.time == 0) false false).stepsTaken = s.stepsTaken
      rw [runTail_stepsTaken_notNew]
    · show (runTail cfg { s with lastMillis := m } t
          (s.nextTide.time == 0) false false).stepsNeeded =
        stepsNeededFormula cfg (s.nextTide.time - t)
      rw [runTail_stepsNeeded]
      simp

/-- The first two events of the C1 counterexample trace: a first-run
acquisition (HIGH, 3 h away), then a missed-cycle fetch (HIGH again, exactly
6 h away) that resets stepsTaken to 0 and installs stepsNeeded = 0 + 1800
(the one-cycle bonus). -/
def c1Prefix : List TcEvent :=
  [.runEv 1000 200200 ⟨1, 11800⟩, .runEv 11900 320200 ⟨1, 33500⟩]

/-- The C1 counterexample trace, entirely within the face span (where the
embedding is float-exact): the two-event prefix above, then 1800 catch-up
pulse invocations 200 ms apart, then one recomputation invocation. -/
def c1Events : List TcEvent :=
  c1Prefix ++
    (catchupEvents 11900 ⟨1, 33500⟩ 320400 1800 ++ [.runEv 12400 681200 ⟨1, 33500⟩])

/-- C1 counterexample: on the trace `c1Events` (all targets within the face
span, so the embedding is exact) stepsTaken is 900 after the first
invocation and 0 after the missed-cycle install — not non-decreasing — and
after the 1800-step catch-up the next invocation recomputes stepsNeeded from
the face formula without the one-cycle bonus, ending with stepsTaken =
1800 > stepsNeeded = 41: `stepsTaken ≤ stepsNeeded` fails exactly across the
invocations that follow a missed-cycle catch-up. -/
theorem tc_C1_counterexample :
    (finalState cfgLinearOne (beginState 200000) (c1Prefix.take 1)).stepsTaken = 900 ∧
    (finalState cfgLinearOne (beginState 200000) c1Prefix).stepsTaken = 0 ∧
    (finalState cfgLinearOne (beginState 200000) c1Events).stepsTaken = 1800 ∧
    (finalState cfgLinearOne (beginState 200000) c1Events).stepsNeeded = 41 ∧
    (finalState cfgLinearOne (beginState 200000) c1Events).stepsNeeded <
      (finalState cfgLinearOne (beginState 200000) c1Events).stepsTaken := by
  have hPrefix :
      finalState cfgLinearOne (beginState 200000) c1Prefix =
        { stepType := true, paused := false, stepsTaken := 0, stepsNeeded := 1800,
          nextTide := ⟨1, 33500⟩, gotTideMillis := 320200, lastMillis := 320200 } := by
    decide
  obtain ⟨c1, c2, c3, c4, c5⟩ :=
    catchup_run 1800
      { stepType := true, paused := false, stepsTaken := 0, stepsNeeded := 1800,
        nextTide := ⟨1, 33500⟩, gotTideMillis := 320200, lastMillis := 320200 }
      11900 ⟨1, 33500⟩ 320400 (by decide) (by decide)
  have hsplit :
      finalState cfgLinearOne (beginState 200000) c1Events =
        (run cfgLinearOne
          (finalState cfgLinearOne
            { stepType := true, paused := false, stepsTaken := 0, stepsNeeded := 1800,
              nextTide := ⟨1, 33500⟩, gotTideMillis := 320200, lastMillis := 320200 }
            (catchupEvents 11900 ⟨1, 33500⟩ 320400 1800))
          12400 681200 ⟨1, 33500⟩).state := by
    unfold c1Events
    rw [finalState_append, hPrefix, finalState_append, finalState_single_run]
  rw [hsplit]
  have hTak :
      (finalState cfgLinearOne
        { stepType := true, paused := false, stepsTaken := 0, stepsNeeded := 1800,
          nextTide := ⟨1, 33500⟩, gotTideMillis := 320200, lastMillis := 320200 }
        (catchupEvents 11900 ⟨1, 33500⟩ 320400 1800)).stepsTaken = 1800 := by
    rw [c1]
  have hNee :
      (finalState cfgLinearOne
        { stepType := true, paused := false, stepsTaken := 0, stepsNeeded := 1800,
          nextTide := ⟨1, 33500⟩, gotTideMillis := 320200, lastMillis := 320200 }
        (catchupEvents 11900 ⟨1, 33500⟩ 320400 1800)).stepsNeeded = 1800 := by
    rw [c2]
  have hTid :
      (finalState cfgLinearOne
        { stepType := true, paused := false, stepsTaken := 0, stepsNeeded := 1800,
          nextTide := ⟨1, 33500⟩, gotTideMillis := 320200, lastMillis := 320200 }
        (catchupEvents 11900 ⟨1, 33500⟩ 320400 1800)).nextTide.time = 33500 := by
    rw [c3]
  obtain ⟨f1, f2, _⟩ :=
    run_nofetch_fields cfgLinearOne
      (finalState cfgLinearOne
        { stepType := true, paused := false, stepsTaken := 0, stepsNeeded := 1800,
          nextTide := ⟨1, 33500⟩, gotTideMillis := 320200, lastMillis := 320200 }
        (catchupEvents 11900 ⟨1, 33500⟩ 320400 1800))
      12400 681200 ⟨1, 33500⟩
      (by show (200 : Nat) ≤ _
          omega)
      (by rw [hTak, hNee])
      (by rw [hTid]
          decide)
  refine ⟨by decide, by decide, ?_, ?_, ?_⟩
  · rw [f1, hTak]
  · rw [f2, hTid]
    decide
  · rw [f1, f2, hTak, hTid]
    decide

/-- C1 amended: during any run(t) invocation that issues a pulse, stepsNeeded
is unchanged, stepsTaken increases by exactly one, and the invocation ends
with stepsTaken ≤ stepsNeeded; and stepsTaken never decreases during an
invocation that does not install a new target.  (The original claim fails
because stepsTaken drops to 0 when a target is installed, and because the
first recomputation after a missed-cycle catch-up drops the one-cycle bonus,
leaving stepsTaken above the freshly recomputed stepsNeeded.) -/
theorem tc_C1_amended (cfg : TcConfig) (s : ClockState) (t : Int) (m : Nat)
    (h : tc_tide_t) :
    ((run cfg s t m h).pulsed = true →
      (run cfg s t m h).state.stepsTaken = s.stepsTaken + 1 ∧
      (run cfg s t m h).state.stepsNeeded = s.stepsNeeded ∧
      (run cfg s t m h).state.stepsTaken ≤ (run cfg s t m h).state.stepsNeeded) ∧
    ((run cfg s t m h).installed = false →
      s.stepsTaken ≤ (run cfg s t m h).state.stepsTaken) := by
  rcases run_cases cfg s t m h with
    ⟨_, heq⟩ | ⟨_, hlt, heq⟩ | ⟨_, _, _, _, heq⟩ | ⟨_, _, _, _, _, heq⟩ |
    ⟨_, _, _, _, _, heq⟩ | ⟨_, _, _, heq⟩
  · rw [heq]
    exact ⟨fun hp => by simp at hp, fun _ => le_refl _⟩
  · rw [heq]
    refine ⟨fun _ => ⟨rfl, rfl, by simpa using hlt⟩, fun _ => by simp⟩
  · rw [heq]
    exact ⟨fun hp => by simp at hp, fun _ => le_refl _⟩
  · rw [heq]
    exact ⟨fun hp => by simp at hp, fun _ => le_refl _⟩
  · rw [heq]
    exact ⟨fun hp => by simp at hp, fun hi => by simp at hi⟩
  · rw [heq]
    refine ⟨fun hp => by simp at hp, fun _ => ?_⟩
    simp only [runTail_stepsTaken_notNew]
    exact le_refl _

theorem tc_C1_amended_witness :
    (run cfgLinearOne
        { stepType := true, paused := false, stepsTaken := 900, stepsNeeded := 901,
          nextTide := ⟨1, 11800⟩, gotTideMillis := 200200, lastMillis := 212200 }
        1012 212400 ⟨1, 11800⟩).pulsed = true ∧
    (run cfgLinearOne
        { stepType := true, paused := false, stepsTaken := 900, stepsNeeded := 901,
          nextTide := ⟨1, 11800⟩, gotTideMillis := 200200, lastMillis := 212200 }
        1012 212400 ⟨1, 11800⟩).state.stepsTaken ≤
      (run cfgLinearOne
        { stepType := true, paused := false, stepsTaken := 900, stepsNeeded := 901,
          nextTide := ⟨1, 11800⟩, gotTideMillis := 200200, lastMillis := 212200 }
        1012 212400 ⟨1, 11800⟩).state.stepsNeeded :=
  ⟨by decide,
    ((tc_C1_amended cfgLinearOne
        { stepType := true, paused := false, stepsTaken := 900, stepsNeeded := 901,
          nextTide := ⟨1, 11800⟩, gotTideMillis := 200200, lastMillis := 212200 }
        1012 212400 ⟨1, 11800⟩).1 (by decide)).2.2⟩

/-- Scenario B setup: the state after the first invocation of a fresh
LINEAR-face stepsPerTick = 1 clock that acquires a target 3 hours away
(stepsTaken = stepsNeeded = 900). -/
def scenarioB_s1 : ClockState :=
  (run cfgLinearOne (beginState 200000) 1000 200200 ⟨1, 11800⟩).state

/-- C3 counterexample: in Scenario B the second invocation, 12 seconds of
wall-clock later, issues NO pulse and ends with stepsTaken = 900 (not 901):
the step decision is made before stepsNeeded is recomputed, refuting the
claim that the second invocation itself issues the pulse. -/
theorem tc_C3_counterexample :
    scenarioB_s1.stepsTaken = 900 ∧ scenarioB_s1.stepsNeeded = 900 ∧
    (run cfgLinearOne scenarioB_s1 1012 212200 ⟨1, 11800⟩).pulsed = false ∧
    (run cfgLinearOne scenarioB_s1 1012 212200 ⟨1, 11800⟩).state.stepsTaken = 900 := by
  decide

/-- C3 amended: in Scenario B the second invocation recomputes
stepsNeeded = 901 but issues 0 pulses (it ends with stepsTaken = 900);
the pulse is issued by the next invocation that passes the motor throttle,
which ends with stepsTaken = 901.  stepsNeeded is recomputed after the step
decision, and only on invocations that do not step. -/
theorem tc_C3_amended :
    (run cfgLinearOne scenarioB_s1 1012 212200 ⟨1, 11800⟩).state.stepsNeeded = 901 ∧
    (run cfgLinearOne scenarioB_s1 1012 212200 ⟨1, 11800⟩).pulsed = false ∧
    (run cfgLinearOne scenarioB_s1 1012 212200 ⟨1, 11800⟩).state.stepsTaken = 900 ∧
    (run cfgLinearOne (run cfgLinearOne scenarioB_s1 1012 212200 ⟨1, 11800⟩).state
        1012 212400 ⟨1, 11800⟩).pulsed = true ∧
    (run cfgLinearOne (run cfgLinearOne scenarioB_s1 1012 212200 ⟨1, 11800⟩).state
        1012 212400 ⟨1, 11800⟩).state.stepsTaken = 901 ∧
    (run cfgLinearOne (run cfgLinearOne scenarioB_s1 1012 212200 ⟨1, 11800⟩).state
        1012 212400 ⟨1, 11800⟩).state.stepsNeeded = 901 := by
  decide

/-- A concrete trace for C9: target acquisition, a recomputation invocation,
one pulse at millis 212400, then a non-pulsing invocation at millis 224400
that advances lastMillis. -/
def c9Events : List TcEvent :=
  [.runEv 1000 200200 ⟨1, 11800⟩,
   .runEv 1012 212200 ⟨1, 11800⟩,
   .runEv 1012 212400 ⟨1, 11800⟩,
   .runEv 1024 224400 ⟨1, 11800⟩]

/-- C9: the pulse throttle measures the interval since the most recent
invocation that passed the throttle check, not since the most recent pulse:
on this trace the only pulse is at millis 212400, the non-pulsing fourth
invocation advances lastMillis to 224400, and a fifth invocation at millis
224550 — with stepsNeeded > stepsTaken and 12150 ms (far more than
minStepIntervalMs = 200) since the last actual pulse — issues no pulse. -/
theorem tc_C9_stale_throttle :
    pulseTimes cfgLinearOne (beginState 200000) c9Events = [212400] ∧
    (finalState cfgLinearOne (beginState 200000) c9Events).lastMillis = 224400 ∧
    (finalState cfgLinearOne (beginState 200000) c9Events).stepsTaken <
      (finalState cfgLinearOne (beginState 200000) c9Events).stepsNeeded ∧
    212400 + cfgLinearOne.minStepInterval < 224550 ∧
    (run cfgLinearOne (finalState cfgLinearOne (beginState 200000) c9Events)
        1025 224550 ⟨1, 11800⟩).pulsed = false := by
  decide

/-- C10: every test() call zeroes the stored next-tide time — also when it
returns false because the motor throttle has not elapsed — and leaves
stepsTaken, stepsNeeded, paused and the stored tide kind unchanged; it
returns true exactly when minStepIntervalMs has elapsed since lastMillis. -/
theorem tc_C10_test_invalidates (cfg : TcConfig) (s : ClockState) (m : Nat) :
    (test cfg s m).1.nextTide.time = 0 ∧
    (test cfg s m).1.nextTide.tideType = s.nextTide.tideType ∧
    (test cfg s m).1.stepsTaken = s.stepsTaken ∧
    (test cfg s m).1.stepsNeeded = s.stepsNeeded ∧
    (test cfg s m).1.paused = s.paused ∧
    ((test cfg s m).2 = true ↔ cfg.minStepInterval ≤ m - s.lastMillis) := by
  simp only [test]
  split
  · rename_i hlt
    refine ⟨rfl, rfl, rfl, rfl, rfl, ?_⟩
    simp only [Bool.false_eq_true, false_iff]
    omega
  · rename_i hge
    refine ⟨rfl, rfl, rfl, rfl, rfl, ?_⟩
    simp only [true_iff]
    omega

/-- `runTail` can clear or keep `paused` but never establish it: the pause
entry branch requires `secFromCycleEnd < 0`, which never holds. -/
lemma runTail_paused_mono (cfg : TcConfig) (s : ClockState) (t : Int)
    (f st mc : Bool) :
    (runTail cfg s t f st mc).paused = true → s.paused = true := by
  have hnn : ¬ secFromCycleEnd cfg (s.nextTide.time - t) < 0 :=
    Int.not_lt.mpr (secFromCycleEnd_nonneg cfg (s.nextTide.time - t))
  simp only [runTail]
  repeat' split
  all_goals simp_all
  all_goals
    exfalso
    omega

/-- `run` never sets `paused`: in the compiled source the PAUSED state is
unreachable. -/
lemma run_paused_mono (cfg : TcConfig) (s : ClockState) (t : Int) (m : Nat)
    (h : tc_tide_t) :
    (run cfg s t m h).state.paused = true → s.paused = true := by
  rcases run_cases cfg s t m h with
    ⟨_, heq⟩ | ⟨_, _, heq⟩ | ⟨_, _, _, _, heq⟩ | ⟨_, _, _, _, _, heq⟩ |
    ⟨_, _, _, _, _, heq⟩ | ⟨_, _, _, heq⟩ <;> rw [heq]
  · exact id
  · exact id
  · exact id
  · exact id
  · exact runTail_paused_mono cfg _ t _ true _
  · exact runTail_paused_mono cfg _ t _ false false

/-- C2 (the code evaluated against the claim): the pause feature is dead
code.  Because the face-span macros are uint32_t, secFromCycleEnd wraps
unsigned and is never negative, so the `secFromCycleEnd < 0` pause-entry
test (TideClock.cpp line 113) never fires and run() never establishes
paused (first conjunct).  At a target beyond the face span — LINEAR face,
fresh clock, first target 7 hours away — the machine does not enter PAUSED:
secFromCycleEnd wraps to 4294963696, the first-pass branch sets
stepsTaken = stepsNeeded at the huge wrapped value, and the next invocation
issues no pulse and still is not paused. -/
theorem tc_C2_paused_dead :
    (∀ (cfg : TcConfig) (s : ClockState) (t : Int) (m : Nat) (h : tc_tide_t),
      (run cfg s t m h).state.paused = true → s.paused = true) ∧
    secFromCycleEnd cfgLinearOne ((26200 : Int) - 1000) = 4294963696 ∧
    (run cfgLinearOne (beginState 200000) 1000 200200 ⟨1, 26200⟩).installed = true ∧
    (run cfgLinearOne (beginState 200000) 1000 200200 ⟨1, 26200⟩).state.paused = false ∧
    (run cfgLinearOne (beginState 200000) 1000 200200 ⟨1, 26200⟩).state.stepsTaken =
      (run cfgLinearOne (beginState 200000) 1000 200200 ⟨1, 26200⟩).state.stepsNeeded ∧
    (run cfgLinearOne (run cfgLinearOne (beginState 200000) 1000 200200 ⟨1, 26200⟩).state
        1001 200400 ⟨1, 26200⟩).pulsed = false ∧
    (run cfgLinearOne (run cfgLinearOne (beginState 200000) 1000 200200 ⟨1, 26200⟩).state
        1001 200400 ⟨1, 26200⟩).state.paused = false :=
  ⟨run_paused_mono, by decide, by decide, by decide, by decide, by decide, by decide⟩

theorem tc_C2_paused_dead_witness :
    ({ stepType := true, paused := true, stepsTaken := 0, stepsNeeded := 0,
       nextTide := ⟨1, 0⟩, gotTideMillis := 0, lastMillis := 1000 } : ClockState).paused
      = true :=
  tc_C2_paused_dead.1 cfgLinearOne
    { stepType := true, paused := true, stepsTaken := 0, stepsNeeded := 0,
      nextTide := ⟨1, 0⟩, gotTideMillis := 0, lastMillis := 1000 }
    0 1000 ⟨1, 0⟩ (by decide)

/-- C6: when a fetch succeeds and the new event has the same tide kind as the
previous target (missed cycle), the stepsNeeded installed by that invocation
equals the face-formula value plus exactly stepsPerTick * TC_TICKS_IN_A_CYCLE
(stepsPerTick * 1800); with an opposite-kind event carrying the same time it
would be exactly the face-formula value, so the missed case is inflated by
exactly one full cycle of steps.  Hypotheses h10/h11 confine the theorem to
in-span targets, where the face formula in the embedding is exact (the C
float computation does not round and the unsigned subtraction does not
wrap). -/
theorem tc_C6_missed_cycle (cfg : TcConfig) (s : ClockState) (t : Int) (m : Nat)
    (hNew hOpp : tc_tide_t)
    (h1 : cfg.minStepInterval ≤ m - s.lastMillis)
    (h2 : s.stepsNeeded ≤ s.stepsTaken)
    (h3 : s.nextTide.time < t)
    (h4 : TC_ASK_TIDE_MILLIS ≤ m - s.gotTideMillis)
    (h5 : hNew.tideType = s.nextTide.tideType)
    (h6 : hNew.tideType ≠ TC_UNAVAILABLE)
    (h7 : hOpp.tideType ≠ s.nextTide.tideType)
    (h8 : hOpp.tideType ≠ TC_UNAVAILABLE)
    (h9 : hOpp.time = hNew.time)
    (h10 : 0 ≤ hNew.time - t)
    (h11 : hNew.time - t ≤ faceSpan cfg) :
    (run cfg s t m hNew).installed = true ∧
    (run cfg s t m hNew).state.stepsNeeded =
      stepsNeededFormula cfg (hNew.time - t) + cfg.stepsPerTick * TC_TICKS_IN_A_CYCLE ∧
    (run cfg s t m hOpp).state.stepsNeeded = stepsNeededFormula cfg (hNew.time - t) ∧
    (run cfg s t m hNew).state.stepsNeeded =
      (run cfg s t m hOpp).state.stepsNeeded + cfg.stepsPerTick * TC_TICKS_IN_A_CYCLE := by
  rcases run_cases cfg s t m hNew with
    ⟨hc, _⟩ | ⟨_, hc, _⟩ | ⟨_, _, _, hc, _⟩ | ⟨_, _, _, _, hc, _⟩ |
    ⟨_, _, _, _, _, heqN⟩ | ⟨_, _, hc, _⟩
  · omega
  · omega
  · omega
  · exact absurd hc h6
  · rcases run_cases cfg s t m hOpp with
      ⟨hc, _⟩ | ⟨_, hc, _⟩ | ⟨_, _, _, hc, _⟩ | ⟨_, _, _, _, hc, _⟩ |
      ⟨_, _, _, _, _, heqO⟩ | ⟨_, _, hc, _⟩
    · omega
    · omega
    · omega
    · exact absurd hc h8
    · have hmcN : (s.nextTide.tideType == hNew.tideType) = true :=
        beq_iff_eq.mpr h5.symm
      have hmcO : (s.nextTide.tideType == hOpp.tideType) = false := by
        simp only [beq_eq_false_iff_ne, ne_eq]
        exact fun hx => h7 hx.symm
      rw [heqN, heqO]
      simp only [runTail_stepsNeeded, hmcN, hmcO, Bool.and_true, Bool.and_false,
        if_true, if_false]
      refine ⟨trivial, ?_, ?_, ?_⟩
      · simp
      · simp [h9]
      · simp [h9]
    · omega
  · omega

theorem tc_C6_missed_cycle_witness :
    (run cfgLinearOne
        { stepType := true, paused := false, stepsTaken := 0, stepsNeeded := 0,
          nextTide := ⟨1, 1000⟩, gotTideMillis := 120000, lastMillis := 239800 }
        2000 240000 ⟨1, 12800⟩).state.stepsNeeded =
      stepsNeededFormula cfgLinearOne ((12800 : Int) - 2000) + 1 * TC_TICKS_IN_A_CYCLE ∧
    (run cfgLinearOne
        { stepType := true, paused := false, stepsTaken := 0, stepsNeeded := 0,
          nextTide := ⟨1, 1000⟩, gotTideMillis := 120000, lastMillis := 239800 }
        2000 240000 ⟨1, 12800⟩).state.stepsNeeded = 2700 :=
  ⟨(tc_C6_missed_cycle cfgLinearOne
      { stepType := true, paused := false, stepsTaken := 0, stepsNeeded := 0,
        nextTide := ⟨1, 1000⟩, gotTideMillis := 120000, lastMillis := 239800 }
      2000 240000 ⟨1, 12800⟩ ⟨0, 12800⟩
      (by decide) (by decide) (by decide) (by decide) (by decide) (by decide)
      (by decide) (by decide) (by decide) (by decide) (by decide)).2.1,
    by decide⟩

/-- C8: when the supplier returns an UNAVAILABLE event, the invocation leaves
nextTide, stepsTaken, stepsNeeded, paused and stepType unchanged and issues
no pulse; it records the query-throttle timestamp gotTideMillis = curMillis
(and, as on every throttle-passing invocation, lastMillis = curMillis), so a
later eligible invocation retries the fetch. -/
theorem tc_C8_unavailable (cfg : TcConfig) (s : ClockState) (t : Int) (m : Nat)
    (h : tc_tide_t)
    (h1 : cfg.minStepInterval ≤ m - s.lastMillis)
    (h2 : s.stepsNeeded ≤ s.stepsTaken)
    (h3 : s.nextTide.time < t)
    (h4 : TC_ASK_TIDE_MILLIS ≤ m - s.gotTideMillis)
    (h5 : h.tideType = TC_UNAVAILABLE) :
    (run cfg s t m h).state.nextTide = s.nextTide ∧
    (run cfg s t m h).state.stepsTaken = s.stepsTaken ∧
    (run cfg s t m h).state.stepsNeeded = s.stepsNeeded ∧
    (run cfg s t m h).state.paused = s.paused ∧
    (run cfg s t m h).state.stepType = s.stepType ∧
    (run cfg s t m h).state.gotTideMillis = m ∧
    (run cfg s t m h).state.lastMillis = m ∧
    (run cfg s t m h).pulsed = false ∧
    (run cfg s t m h).queried = true := by
  rcases run_cases cfg s t m h with
    ⟨hc, _⟩ | ⟨_, hc, _⟩ | ⟨_, _, _, hc, _⟩ | ⟨_, _, _, _, _, heq⟩ |
    ⟨_, _, _, _, hc, _⟩ | ⟨_, _, hc, _⟩
  · omega
  · omega
  · omega
  · rw [heq]
    exact ⟨rfl, rfl, rfl, rfl, rfl, rfl, rfl, rfl, rfl⟩
  · exact absurd h5 hc
  · omega

theorem tc_C8_unavailable_witness :
    (run cfgLinearOne
        { stepType := true, paused := false, stepsTaken := 900, stepsNeeded := 900,
          nextTide := ⟨1, 11800⟩, gotTideMillis := 120000, lastMillis := 239800 }
        11900 240000 ⟨3, 0⟩).state.nextTide = (⟨1, 11800⟩ : tc_tide_t) ∧
    (run cfgLinearOne
        { stepType := true, paused := false, stepsTaken := 900, stepsNeeded := 900,
          nextTide := ⟨1, 11800⟩, gotTideMillis := 120000, lastMillis := 239800 }
        11900 240000 ⟨3, 0⟩).state.gotTideMillis = 240000 ∧
    (run cfgLinearOne
        { stepType := true, paused := false, stepsTaken := 900, stepsNeeded := 900,
          nextTide := ⟨1, 11800⟩, gotTideMillis := 120000, lastMillis := 239800 }
        11900 240000 ⟨3, 0⟩).pulsed = false ∧
    (run cfgLinearOne
        { stepType := true, paused := false, stepsTaken := 900, stepsNeeded := 900,
          nextTide := ⟨1, 11800⟩, gotTideMillis := 120000, lastMillis := 239800 }
        11900 240000 ⟨3, 0⟩).queried = true :=
  ⟨(tc_C8_unavailable cfgLinearOne
      { stepType := true, paused := false, stepsTaken := 900, stepsNeeded := 900,
        nextTide := ⟨1, 11800⟩, gotTideMillis := 120000, lastMillis := 239800 }
      11900 240000 ⟨3, 0⟩
      (by decide) (by decide) (by decide) (by decide) (by decide)).1,
   (tc_C8_unavailable cfgLinearOne
      { stepType := true, paused := false, stepsTaken := 900, stepsNeeded := 900,
        nextTide := ⟨1, 11800⟩, gotTideMillis := 120000, lastMillis := 239800 }
      11900 240000 ⟨3, 0⟩
      (by decide) (by decide) (by decide) (by decide) (by decide)).2.2.2.2.2.1,
   (tc_C8_unavailable cfgLinearOne
      { stepType := true, paused := false, stepsTaken := 900, stepsNeeded := 900,
        nextTide := ⟨1, 11800⟩, gotTideMillis := 120000, lastMillis := 239800 }
      11900 240000 ⟨3, 0⟩
      (by decide) (by decide) (by decide) (by decide) (by decide)).2.2.2.2.2.2.2.1,
   (tc_C8_unavailable cfgLinearOne
      { stepType := true, paused := false, stepsTaken := 900, stepsNeeded := 900,
        nextTide := ⟨1, 11800⟩, gotTideMillis := 120000, lastMillis := 239800 }
      11900 240000 ⟨3, 0⟩
      (by decide) (by decide) (by decide) (by decide) (by decide)).2.2.2.2.2.2.2.2⟩
